import Mathlib

/-!
Shallow embedding of the WritePilot demo backend (FastAPI + SQLAlchemy + OpenAI
client) and proofs about its article lifecycle.

Source files embedded:
  app/services/openai_client.py  (the text-generation gateway)
  app/api/write.py               (the JSON API surface)
  app/ui/web.py                  (the form-based UI surface)
  app/schemas/write.py           (pydantic request validation)
  app/db/models.py               (the Article row)

Conventions of the embedding:
  * Python `str.strip()` is modelled by `pyStrip` (drop whitespace from both
    ends of the character list).
  * The external chat-completion provider is an explicit input: a function
    from the user-prompt string to an outcome that either raises (any
    transport/provider error, carried as its message string) or returns a
    `ChatResponse` value shaped like the SDK response object.
  * The SQLite store is a list of `Article` rows plus the autoincrement
    counter; SQLAlchemy commit/rollback is modelled by returning either the
    updated store (commit) or the original store (an exception before commit
    rolls back, since the request-scoped session is closed without commit).
  * Wall-clock time is an explicit `now : Nat` argument standing for
    `datetime.utcnow`; the ORM `onupdate` refresh of `updated_at` happens on
    the commit of a mutated row.
  * Exceptions become `Except`: `RuntimeError` inside the gateway is the
    error string, `HTTPException` in the API is `ApiError` with its status.
-/

namespace WritePilot

/-! ## Python string model -/

/-- Characters dropped by Python `str.strip()` (ASCII whitespace model). -/
def isWs (c : Char) : Bool := c.isWhitespace

/-- Drop whitespace from both ends of a character list. -/
def stripChars (cs : List Char) : List Char :=
  ((cs.dropWhile isWs).reverse.dropWhile isWs).reverse

/-- Model of Python `str.strip()`. -/
def pyStrip (s : String) : String := ⟨stripChars s.data⟩

/-- Model of `text is None or not str(text).strip()` (web.py `_is_blank`,
and the guard inside both `_require_non_empty` helpers). -/
def is_blank (text : Option String) : Bool :=
  match text with
  | none => true
  | some t => pyStrip t = ""

/-- Python f-string rendering of an `Optional[str]`: `None` or the bare text. -/
def pyShowOptStr (o : Option String) : String :=
  match o with
  | none => "None"
  | some s => s

/-- Python f-string rendering of a `bool`. -/
def pyShowBool (b : Bool) : String := if b then "True" else "False"

/-! ## Provider (OpenAI chat-completion) model -/

/-- The `message` field of a completion choice: `content` may be `None`,
`tool_calls` is `None` or a (possibly empty) list of tool calls. -/
structure Message where
  content : Option String
  tool_calls : Option (List String)
deriving Repr, DecidableEq

/-- One completion choice: its message and the provider's finish reason. -/
structure Choice where
  message : Message
  finish_reason : Option String
deriving Repr, DecidableEq

/-- The provider response: the list of completion choices. -/
structure ChatResponse where
  choices : List Choice
deriving Repr, DecidableEq

/-- Outcome of one call to `_client.chat.completions.create`: either the call
raises (any transport/provider error, carried as its message) or it returns a
response value. -/
inductive ProviderOutcome where
  | raises (msg : String)
  | returns (res : ChatResponse)
deriving Repr, DecidableEq

/-- The external provider, as a function of the user prompt sent to it. -/
abbrev Provider : Type := String → ProviderOutcome

/-- Python `bool(getattr(choice.message, 'tool_calls', None))`: `None` and the
empty list are falsy, a non-empty list is truthy. -/
def hasToolCalls (m : Message) : Bool :=
  match m.tool_calls with
  | none => false
  | some [] => false
  | some (_ :: _) => true

/-! ## Gateway: app/services/openai_client.py -/

/-- Embedding of `openai_client._require_non_empty(text, msg)`: raise
`RuntimeError(msg)` when the text is `None` or blank after stripping,
otherwise return `str(text).strip()`. -/
def require_non_empty (text : Option String) (msg : String) : Except String String :=
  if is_blank text then .error msg
  else .ok (pyStrip (text.getD ""))

/-- The diagnostic message built by both gateway operations when the provider
returned blank text: it reports the finish reason and the tool-call flag. -/
def emptyContentMsg (choice : Choice) : String :=
  "Empty LLM content (finish_reason=" ++ pyShowOptStr choice.finish_reason ++
    ", has_tool_calls=" ++ pyShowBool (hasToolCalls choice.message) ++ ")"

/-- The generate prompt template of `generate_article` (built with an f-string
and stripped). -/
def generatePrompt (title audience tone : String) : String :=
  pyStrip ("\nYou are WritePilot, an AI writing assistant for English blogs.\n\nWrite an English blog article.\n\nRequirements:\n- Title: " ++ title ++ "\n- Audience: " ++ audience ++ "\n- Tone: " ++ tone ++ "\n- Use Markdown\n- Add headings (##) and bullet points where helpful\n- End with a short conclusion\n\nOutput only the article in Markdown.\n")

/-- The rewrite prompt template of `rewrite_article`. -/
def rewritePrompt (text target_tone : String) : String :=
  pyStrip ("\nYou are WritePilot, an AI writing assistant for English blogs.\n\nRewrite the following article in English.\n\nRequirements:\n- Keep the meaning\n- Improve clarity and flow\n- Tone: " ++ target_tone ++ "\n- Keep headings (##) if present\n- Output only the rewritten article in Markdown\n\nARTICLE:\n" ++ text ++ "\n")

/-- Shared tail of both gateway operations: take the first choice, strip its
message content (`(choice.message.content or "").strip()`), and pass it to
`_require_non_empty` with the diagnostic message. An empty `choices` list
makes `res.choices[0]` raise `IndexError`. -/
def extractFirstChoice (res : ChatResponse) : Except String String :=
  match res.choices with
  | [] => .error "IndexError: list index out of range"
  | choice :: _ =>
      let content := pyStrip (choice.message.content.getD "")
      require_non_empty (some content) (emptyContentMsg choice)

/-- Embedding of `generate_article(title, audience, tone)`: build the prompt,
call the provider; any raise propagates; otherwise extract and validate the
first choice's text. -/
def generate_article (title audience tone : String) (provider : Provider) :
    Except String String :=
  match provider (generatePrompt title audience tone) with
  | .raises e => .error e
  | .returns res => extractFirstChoice res

/-- Embedding of `rewrite_article(text, target_tone)`. -/
def rewrite_article (text target_tone : String) (provider : Provider) :
    Except String String :=
  match provider (rewritePrompt text target_tone) with
  | .raises e => .error e
  | .returns res => extractFirstChoice res

/-! ## Data model: app/db/models.py -/

/-- The `articles` row: autoincrement primary key, four string columns, two
timestamps (`created_at` set once, `updated_at` refreshed on update). -/
structure Article where
  id : Nat
  title : String
  audience : String
  tone : String
  content : String
  created_at : Nat
  updated_at : Nat
deriving Repr, DecidableEq

/-- The SQLite store: the persisted rows plus the autoincrement counter that
assigns the next primary key. -/
structure DB where
  rows : List Article
  nextId : Nat
deriving Repr, DecidableEq

/-- Embedding of `db.get(Article, article_id)`: primary-key lookup. -/
def DB.getRow (db : DB) (article_id : Nat) : Option Article :=
  db.rows.find? (fun r => r.id = article_id)

/-- Commit of an in-place mutation of a loaded row: the row with the same
primary key is replaced. -/
def DB.updateRow (db : DB) (a : Article) : DB :=
  { db with rows := db.rows.map (fun r => if r.id = a.id then a else r) }

/-- Commit of `db.add(row)` for a fresh row: the store assigns the next
autoincrement id and both timestamps. -/
def DB.insertRow (db : DB) (title audience tone content : String) (now : Nat) :
    DB × Article :=
  let row : Article :=
    { id := db.nextId, title := title, audience := audience, tone := tone,
      content := content, created_at := now, updated_at := now }
  ({ rows := db.rows ++ [row], nextId := db.nextId + 1 }, row)

/-- Commit of `db.delete(a)`: the loaded row is removed from the store. -/
def DB.deleteRow (db : DB) (article_id : Nat) : DB :=
  { db with rows := db.rows.eraseP (fun r => r.id = article_id) }

/-! ## Schemas: app/schemas/write.py -/

/-- Body of POST /generate after pydantic parsing (defaults applied). -/
structure GenerateRequest where
  title : String
  audience : String
  tone : String
deriving Repr, DecidableEq

/-- The pydantic field constraints of `GenerateRequest`: `title` needs
`min_length=1, max_length=200`, `audience` and `tone` need `max_length=50`.
FastAPI rejects a body violating them before the handler runs. -/
def GenerateRequest.valid (r : GenerateRequest) : Bool :=
  1 ≤ r.title.length && r.title.length ≤ 200 &&
    r.audience.length ≤ 50 && r.tone.length ≤ 50

/-- Pydantic parsing of the /generate body: missing `audience` and `tone`
default to `"general"` and `"friendly"`; a missing `title` or a field
violating its length constraint is a 422 validation error. -/
def GenerateRequest.parse (title audience tone : Option String) :
    Except String GenerateRequest :=
  match title with
  | none => .error "field required: title"
  | some t =>
      let r : GenerateRequest :=
        { title := t, audience := audience.getD "general",
          tone := tone.getD "friendly" }
      if r.valid then .ok r else .error "validation error"

/-- Response body of POST /generate. -/
structure GenerateResponse where
  id : Nat
  title : String
  article : String
deriving Repr, DecidableEq

/-- The external article representation (`content` renamed `article`). -/
structure ArticleOut where
  id : Nat
  title : String
  audience : String
  tone : String
  article : String
  created_at : Nat
  updated_at : Nat
deriving Repr, DecidableEq

/-- Body of PUT/PATCH /articles/id: every field optional, no length or
non-emptiness constraint on any of them. -/
structure ArticleUpdate where
  title : Option String
  audience : Option String
  tone : Option String
  article : Option String
deriving Repr, DecidableEq

/-- Body of POST /rewrite/id after pydantic parsing. -/
structure RewriteRequest where
  tone : String
deriving Repr, DecidableEq

/-- Pydantic parsing of the /rewrite body: a missing `tone` defaults to
`"friendly"`; `max_length=50` is enforced. -/
def RewriteRequest.parse (tone : Option String) : Except String RewriteRequest :=
  let t := tone.getD "friendly"
  if t.length ≤ 50 then .ok { tone := t } else .error "validation error"

/-! ## API surface: app/api/write.py -/

/-- The `HTTPException` cases raised by the write router, with their status. -/
inductive ApiError where
  | notFound (detail : String)
  | unprocessable (detail : String)
  | badGateway (detail : String)
deriving Repr, DecidableEq

/-- HTTP status code of each error case. -/
def ApiError.statusCode : ApiError → Nat
  | .notFound _ => 404
  | .unprocessable _ => 422
  | .badGateway _ => 502

/-- Embedding of `_to_article_out`. -/
def to_article_out (a : Article) : ArticleOut :=
  { id := a.id, title := a.title, audience := a.audience, tone := a.tone,
    article := a.content, created_at := a.created_at,
    updated_at := a.updated_at }

/-- Embedding of the API helper `_get_article_or_404`. -/
def get_article_or_404 (db : DB) (article_id : Nat) : Except ApiError Article :=
  match db.getRow article_id with
  | none => .error (.notFound "Article not found")
  | some a => .ok a

/-- Embedding of `_apply_update`: each field of the request that is not `None`
overwrites the row field; `None` fields leave the row field untouched. -/
def apply_update (a : Article) (req : ArticleUpdate) : Article :=
  let a := match req.title with
    | some t => { a with title := t }
    | none => a
  let a := match req.audience with
    | some t => { a with audience := t }
    | none => a
  let a := match req.tone with
    | some t => { a with tone := t }
    | none => a
  match req.article with
  | some t => { a with content := t }
  | none => a

/-- Embedding of the API helper `_require_non_empty` in write.py, which raises
`HTTPException(502)` instead of `RuntimeError` and returns the text unstripped. -/
def api_require_non_empty (text : Option String) (message : String) :
    Except ApiError String :=
  if is_blank text then .error (.badGateway message)
  else .ok (text.getD "")

/-- Every handler returns the resulting store next to its HTTP outcome; an
`HTTPException` means no commit happened, so the store is the caller's. -/
abbrev Handler (α : Type) : Type := DB × Except ApiError α

/-- Embedding of POST /generate: call the gateway (any exception becomes a
502), re-check non-emptiness (502), then insert and commit one row. -/
def generate (req : GenerateRequest) (provider : Provider) (now : Nat)
    (db : DB) : Handler GenerateResponse :=
  match generate_article req.title req.audience req.tone provider with
  | .error e => (db, .error (.badGateway ("LLM generation failed: " ++ e)))
  | .ok article_text =>
      match api_require_non_empty (some article_text)
          "LLM generation returned empty content" with
      | .error e => (db, .error e)
      | .ok article_text =>
          let (db2, row) :=
            db.insertRow req.title req.audience req.tone article_text now
          (db2, .ok { id := row.id, title := row.title, article := row.content })

/-- Embedding of GET /articles: all rows, ordered by id descending. -/
def list_articles (db : DB) : List ArticleOut :=
  (db.rows.mergeSort (fun a b => b.id ≤ a.id)).map to_article_out

/-- Embedding of GET /articles/id. -/
def get_article (article_id : Nat) (db : DB) : Handler ArticleOut :=
  match get_article_or_404 db article_id with
  | .error e => (db, .error e)
  | .ok a => (db, .ok (to_article_out a))

/-- Embedding of PUT /articles/id: load or 404, apply the provided fields,
422 without commit if the resulting content is blank, otherwise commit (the
ORM `onupdate` refreshes `updated_at`). -/
def update_article (article_id : Nat) (req : ArticleUpdate) (now : Nat)
    (db : DB) : Handler ArticleOut :=
  match get_article_or_404 db article_id with
  | .error e => (db, .error e)
  | .ok a =>
      let a2 := apply_update a req
      if is_blank (some a2.content) then
        (db, .error (.unprocessable "Article content cannot be empty"))
      else
        let a3 := { a2 with updated_at := now }
        (db.updateRow a3, .ok (to_article_out a3))

/-- Embedding of PATCH /articles/id (same body as the PUT handler). -/
def patch_article (article_id : Nat) (req : ArticleUpdate) (now : Nat)
    (db : DB) : Handler ArticleOut :=
  match get_article_or_404 db article_id with
  | .error e => (db, .error e)
  | .ok a =>
      let a2 := apply_update a req
      if is_blank (some a2.content) then
        (db, .error (.unprocessable "Article content cannot be empty"))
      else
        let a3 := { a2 with updated_at := now }
        (db.updateRow a3, .ok (to_article_out a3))

/-- Response body of DELETE /articles/id. -/
structure DeleteResponse where
  deleted : Bool
  id : Nat
deriving Repr, DecidableEq

/-- Embedding of DELETE /articles/id: load or 404, then remove and commit. -/
def delete_article (article_id : Nat) (db : DB) : Handler DeleteResponse :=
  match get_article_or_404 db article_id with
  | .error e => (db, .error e)
  | .ok _ => (db.deleteRow article_id, .ok { deleted := true, id := article_id })

/-- Embedding of POST /rewrite/id: load or 404, call the gateway on the stored
content (any exception becomes a 502), re-check non-emptiness (502), then
overwrite `content` and `tone` and commit. -/
def rewrite (article_id : Nat) (req : RewriteRequest) (provider : Provider)
    (now : Nat) (db : DB) : Handler ArticleOut :=
  match get_article_or_404 db article_id with
  | .error e => (db, .error e)
  | .ok a =>
      match rewrite_article a.content req.tone provider with
      | .error e => (db, .error (.badGateway ("LLM rewrite failed: " ++ e)))
      | .ok rewritten =>
          match api_require_non_empty (some rewritten)
              "LLM rewrite returned empty content" with
          | .error e => (db, .error e)
          | .ok rewritten =>
              let a2 :=
                { a with content := rewritten, tone := req.tone, updated_at := now }
              (db.updateRow a2, .ok (to_article_out a2))

/-! ## UI surface: app/ui/web.py -/

/-- Response of a UI action handler: either a 303 see-other redirect to the
given URL, or an `HTTPException` error body with its status and detail. -/
inductive UiResponse where
  | redirect (url : String)
  | httpError (code : Nat) (detail : String)
deriving Repr, DecidableEq

/-- Whether a UI response is a redirect. -/
def UiResponse.isRedirect : UiResponse → Bool
  | .redirect _ => true
  | .httpError _ _ => false

/-- Result of a UI action handler: the resulting store, the response, and the
lines written to the server-side log by `_log_exc`. -/
abbrev UiHandler : Type := DB × UiResponse × List String

/-- Embedding of `_log_exc(prefix, exc)`: the log line it prints. -/
def log_exc (prefix_ exc : String) : String := prefix_ ++ ": " ++ exc

/-- Embedding of POST /ui/generate: gateway call; on raise, log and redirect
to /ui/new with `error=llm_failed`; on a blank result, same redirect; else
insert one row and redirect to its page. -/
def ui_generate (title audience tone : String) (provider : Provider)
    (now : Nat) (db : DB) : UiHandler :=
  match generate_article title audience tone provider with
  | .error e =>
      (db, .redirect "/ui/new?error=llm_failed", [log_exc "LLM generate failed" e])
  | .ok article_text =>
      if is_blank (some article_text) then
        (db, .redirect "/ui/new?error=llm_failed",
          [log_exc "LLM generate failed" "ValueError: LLM returned empty content"])
      else
        let (db2, row) := db.insertRow title audience tone article_text now
        (db2, .redirect ("/ui/articles/" ++ toString row.id), [])

/-- Embedding of POST /ui/articles/id/update: the blank-content check runs
before the existence check; a blank content redirects back with
`error=empty_content`; a missing id raises 404 (`_get_article_or_404` in
web.py raises an `HTTPException`, it does not redirect); otherwise all four
fields are overwritten and committed. -/
def ui_update (article_id : Nat) (title audience tone content : String)
    (now : Nat) (db : DB) : UiHandler :=
  if is_blank (some content) then
    (db, .redirect ("/ui/articles/" ++ toString article_id ++ "?error=empty_content"),
      [])
  else
    match db.getRow article_id with
    | none => (db, .httpError 404 "Article not found", [])
    | some a =>
        let a2 :=
          { a with title := title, audience := audience, tone := tone,
                   content := content, updated_at := now }
        (db.updateRow a2, .redirect ("/ui/articles/" ++ toString a2.id), [])

/-- Embedding of POST /ui/articles/id/rewrite: missing id raises 404; a
gateway raise or blank result logs and redirects back with
`error=llm_failed`; otherwise `content` and `tone` are overwritten and
committed. -/
def ui_rewrite (article_id : Nat) (tone : String) (provider : Provider)
    (now : Nat) (db : DB) : UiHandler :=
  match db.getRow article_id with
  | none => (db, .httpError 404 "Article not found", [])
  | some a =>
      match rewrite_article a.content tone provider with
      | .error e =>
          (db, .redirect ("/ui/articles/" ++ toString article_id ++ "?error=llm_failed"),
            [log_exc "LLM rewrite failed" e])
      | .ok rewritten =>
          if is_blank (some rewritten) then
            (db, .redirect ("/ui/articles/" ++ toString article_id ++ "?error=llm_failed"),
              [log_exc "LLM rewrite failed" "ValueError: LLM returned empty content"])
          else
            let a2 :=
              { a with content := rewritten, tone := tone, updated_at := now }
            (db.updateRow a2, .redirect ("/ui/articles/" ++ toString a2.id), [])

/-- Embedding of POST /ui/articles/id/delete: missing id raises 404; else the
row is removed and the response redirects to the index. -/
def ui_delete (article_id : Nat) (db : DB) : UiHandler :=
  match db.getRow article_id with
  | none => (db, .httpError 404 "Article not found", [])
  | some _ => (db.deleteRow article_id, .redirect "/ui", [])

/-- Decidable equality of `Except` results, so that witnesses can be checked
by evaluation. -/
instance exceptDecidableEq {ε α : Type} [DecidableEq ε] [DecidableEq α] :
    DecidableEq (Except ε α) := fun x y =>
  match x, y with
  | .error a, .error b =>
      if h : a = b then isTrue (congrArg Except.error h)
      else isFalse (fun hc => h (Except.error.inj hc))
  | .error _, .ok _ => isFalse (fun hc => Except.noConfusion hc)
  | .ok _, .error _ => isFalse (fun hc => Except.noConfusion hc)
  | .ok a, .ok b =>
      if h : a = b then isTrue (congrArg Except.ok h)
      else isFalse (fun hc => h (Except.ok.inj hc))

/-! ## Helper lemmas about the string model -/

theorem dropWhile_head_false {α : Type} (p : α → Bool) :
    ∀ {l : List α} {c : α} {t : List α}, l.dropWhile p = c :: t → p c = false := by
  intro l
  induction l with
  | nil => intro c t h; simp [List.dropWhile] at h
  | cons a l ih =>
      intro c t h
      rw [List.dropWhile_cons] at h
      cases hpa : p a with
      | true => rw [hpa] at h; simp at h; exact ih h
      | false =>
          rw [hpa] at h
          simp at h
          obtain ⟨rfl, -⟩ := h
          exact hpa

theorem dropWhile_cons_of_neg {α : Type} (p : α → Bool) (c : α) (t : List α)
    (h : p c = false) : (c :: t).dropWhile p = c :: t := by
  simp [List.dropWhile_cons, h]

theorem stripChars_of_clean (d : List Char)
    (hclean : d = [] ∨ ∃ c t, d = c :: t ∧ isWs c = false) :
    stripChars ((d.reverse.dropWhile isWs).reverse) =
      (d.reverse.dropWhile isWs).reverse := by
  unfold stripChars
  rcases he : d.reverse.dropWhile isWs with - | ⟨x, s⟩
  · simp
  · have hx : isWs x = false := dropWhile_head_false isWs he
    have hsplit : d.reverse.takeWhile isWs ++ (x :: s) = d.reverse := by
      rw [← he]; exact List.takeWhile_append_dropWhile isWs d.reverse
    have hd2 : d = (x :: s).reverse ++ (d.reverse.takeWhile isWs).reverse := by
      have h2 := congrArg List.reverse hsplit
      rw [List.reverse_append] at h2
      simpa using h2.symm
    obtain ⟨y, ys, hy⟩ : ∃ y ys, (x :: s).reverse = y :: ys := by
      rcases hr : (x :: s).reverse with - | ⟨y, ys⟩
      · exact absurd (congrArg List.length hr) (by simp)
      · exact ⟨y, ys, rfl⟩
    have hdy : d = y :: (ys ++ (d.reverse.takeWhile isWs).reverse) := by
      conv_lhs => rw [hd2]
      rw [hy, List.cons_append]
    have hyw : isWs y = false := by
      rcases hclean with hnil | ⟨c, t, hct, hcw⟩
      · rw [hnil] at hdy; exact absurd hdy (by simp)
      · rw [hct] at hdy
        injection hdy with h1 h2
        rw [← h1]
        exact hcw
    have hrr : (y :: ys).reverse = x :: s := by rw [← hy, List.reverse_reverse]
    rw [hy, dropWhile_cons_of_neg isWs y ys hyw, hrr,
      dropWhile_cons_of_neg isWs x s hx]
    exact hy

theorem stripChars_idem (l : List Char) :
    stripChars (stripChars l) = stripChars l := by
  have hclean : l.dropWhile isWs = [] ∨
      ∃ c t, l.dropWhile isWs = c :: t ∧ isWs c = false := by
    rcases hdw : l.dropWhile isWs with - | ⟨c, t⟩
    · exact Or.inl rfl
    · exact Or.inr ⟨c, t, rfl, dropWhile_head_false isWs hdw⟩
  exact stripChars_of_clean (l.dropWhile isWs) hclean

theorem pyStrip_idem (s : String) : pyStrip (pyStrip s) = pyStrip s :=
  congrArg String.mk (stripChars_idem s.data)

theorem is_blank_pyStrip (t : String) :
    is_blank (some (pyStrip t)) = is_blank (some t) := by
  simp [is_blank, pyStrip_idem]

/-! ## Helper lemmas about the gateway -/

theorem require_non_empty_ok {t r msg : String}
    (h : require_non_empty (some t) msg = .ok r) :
    r = pyStrip t ∧ is_blank (some r) = false := by
  unfold require_non_empty at h
  cases hb : is_blank (some t) with
  | true => rw [hb] at h; simp at h
  | false =>
      rw [hb] at h
      simp at h
      refine ⟨h.symm, ?_⟩
      rw [← h, is_blank_pyStrip]
      exact hb

theorem extractFirstChoice_ok {res : ChatResponse} {t : String}
    (h : extractFirstChoice res = .ok t) : is_blank (some t) = false := by
  unfold extractFirstChoice at h
  rcases hc : res.choices with - | ⟨choice, rest⟩
  · rw [hc] at h; simp at h
  · rw [hc] at h
    exact (require_non_empty_ok h).2

theorem generate_article_ok {title audience tone t : String} {provider : Provider}
    (h : generate_article title audience tone provider = .ok t) :
    is_blank (some t) = false := by
  unfold generate_article at h
  rcases hp : provider (generatePrompt title audience tone) with e | res
  · rw [hp] at h; simp at h
  · rw [hp] at h
    exact extractFirstChoice_ok h

theorem rewrite_article_ok {text target_tone t : String} {provider : Provider}
    (h : rewrite_article text target_tone provider = .ok t) :
    is_blank (some t) = false := by
  unfold rewrite_article at h
  rcases hp : provider (rewritePrompt text target_tone) with e | res
  · rw [hp] at h; simp at h
  · rw [hp] at h
    exact extractFirstChoice_ok h

/-! ## Helper lemmas about the store -/

theorem find?_some_id {rows : List Article} {id : Nat} {a : Article}
    (h : rows.find? (fun r => r.id = id) = some a) : a.id = id := by
  have := List.find?_some h
  simpa using this

theorem getRow_some_id {db : DB} {id : Nat} {a : Article}
    (h : db.getRow id = some a) : a.id = id :=
  find?_some_id h

theorem find?_map_update (rows : List Article) (id : Nat) (a a2 : Article)
    (h : rows.find? (fun r => r.id = id) = some a) (hid : a2.id = a.id) :
    (rows.map (fun r => if r.id = a2.id then a2 else r)).find?
      (fun r => r.id = id) = some a2 := by
  have haid : a.id = id := find?_some_id h
  induction rows with
  | nil => simp at h
  | cons r rest ih =>
      simp only [List.map_cons]
      by_cases hr : r.id = id
      · have hra : r.id = a2.id := by rw [hid, haid]; exact hr
        rw [if_pos hra]
        simp [List.find?_cons, hid, haid]
      · have hra : ¬ r.id = a2.id := by rw [hid, haid]; exact hr
        rw [if_neg hra]
        rw [List.find?_cons] at h ⊢
        have hdr : (decide (r.id = id)) = false := by simp [hr]
        rw [hdr] at h ⊢
        exact ih h

theorem getRow_updateRow {db : DB} {id : Nat} {a a2 : Article}
    (h : db.getRow id = some a) (hid : a2.id = a.id) :
    (db.updateRow a2).getRow id = some a2 :=
  find?_map_update db.rows id a a2 h hid

theorem find?_eraseP_self (rows : List Article) (id : Nat)
    (hnd : (rows.map Article.id).Nodup) :
    (rows.eraseP (fun r => r.id = id)).find? (fun r => r.id = id) = none := by
  induction rows with
  | nil => simp
  | cons r rest ih =>
      simp only [List.map_cons, List.nodup_cons] at hnd
      by_cases hr : r.id = id
      · rw [List.eraseP_cons_of_pos (by simp [hr])]
        rw [List.find?_eq_none]
        intro x hx
        simp only [decide_eq_true_eq]
        intro hxid
        apply hnd.1
        rw [hr, ← hxid]
        exact List.mem_map_of_mem Article.id hx
      · rw [List.eraseP_cons_of_neg (by simp [hr])]
        rw [List.find?_cons]
        have hdr : (decide (r.id = id)) = false := by simp [hr]
        rw [hdr]
        exact ih hnd.2

theorem getRow_deleteRow_self {db : DB} {id : Nat}
    (hnd : (db.rows.map Article.id).Nodup) :
    (db.deleteRow id).getRow id = none :=
  find?_eraseP_self db.rows id hnd

/-! ## Helper lemmas about partial update -/

theorem apply_update_frame (a : Article) (req : ArticleUpdate) :
    (req.title = none → (apply_update a req).title = a.title) ∧
    (req.audience = none → (apply_update a req).audience = a.audience) ∧
    (req.tone = none → (apply_update a req).tone = a.tone) ∧
    (req.article = none → (apply_update a req).content = a.content) ∧
    (apply_update a req).id = a.id ∧
    (apply_update a req).created_at = a.created_at ∧
    (apply_update a req).updated_at = a.updated_at := by
  rcases req with ⟨t, au, tn, ar⟩
  cases t <;> cases au <;> cases tn <;> cases ar <;> simp [apply_update]

/-! ## Concrete fixtures for witnesses and counterexamples -/

/-- A stored article with a non-default tone, used as a concrete store row. -/
def exArticle : Article :=
  { id := 1, title := "T", audience := "general", tone := "formal",
    content := "Body", created_at := 0, updated_at := 0 }

/-- A one-row store. -/
def exDB : DB := { rows := [exArticle], nextId := 2 }

/-- The empty store. -/
def emptyDB : DB := { rows := [], nextId := 1 }

/-- A provider whose call always raises. -/
def failProvider : Provider := fun _ => .raises "boom"

/-- A completion choice carrying usable text. -/
def okChoice : Choice :=
  { message := { content := some "# New\n\nText.", tool_calls := none },
    finish_reason := some "stop" }

/-- A provider that always returns one usable choice. -/
def okProvider : Provider := fun _ => .returns { choices := [okChoice] }

/-- A completion choice whose text is whitespace-only (a tool-call stop). -/
def blankChoice : Choice :=
  { message := { content := some "  ", tool_calls := some ["search"] },
    finish_reason := some "tool_calls" }

/-- A provider that always returns the blank choice. -/
def blankProvider : Provider := fun _ => .returns { choices := [blankChoice] }

/-- A second stored article with a higher id, for ordering tests. -/
def exArticle2 : Article :=
  { id := 2, title := "U", audience := "developers", tone := "casual",
    content := "More", created_at := 1, updated_at := 1 }

/-- A two-row store enumerated in ascending id order. -/
def exDB2 : DB := { rows := [exArticle, exArticle2], nextId := 3 }

/-! ## Claim theorems -/

/-- Claim C1: every call of the generate operation (POST /generate) either
commits exactly one new article row whose content is non-blank, or commits
nothing and fails with a 502 GenerationFailed error; a blank-content row is
never persisted by generate. -/
theorem generate_one_nonblank_row_or_502
    (req : GenerateRequest) (provider : Provider) (now : Nat) (db : DB) :
    (∃ row resp,
        generate req provider now db =
          ({ rows := db.rows ++ [row], nextId := db.nextId + 1 }, .ok resp) ∧
        is_blank (some row.content) = false ∧
        (db.rows ++ [row]).length = db.rows.length + 1) ∨
    (∃ e, generate req provider now db = (db, .error e) ∧
        ApiError.statusCode e = 502) := by
  cases hg : generate_article req.title req.audience req.tone provider with
  | error e =>
      right
      refine ⟨.badGateway ("LLM generation failed: " ++ e), ?_, rfl⟩
      simp only [generate, hg]
  | ok t =>
      have hb : is_blank (some t) = false := generate_article_ok hg
      have hreq : api_require_non_empty (some t)
          "LLM generation returned empty content" = .ok t := by
        simp [api_require_non_empty, hb]
      left
      refine ⟨{ id := db.nextId, title := req.title, audience := req.audience,
                tone := req.tone, content := t, created_at := now,
                updated_at := now },
              { id := db.nextId, title := req.title, article := t }, ?_, hb, by simp⟩
      simp only [generate, hg, hreq, DB.insertRow]

/-- Claim C2: a rewrite (POST /rewrite/id) of an existing article either
replaces both `content` (with the provider's rewritten text) and `tone`
(with the requested tone) in the stored row, or fails and returns the store
exactly as it was; no partial mutation of only one field is observable. -/
theorem rewrite_replaces_both_or_nothing
    (article_id : Nat) (req : RewriteRequest) (provider : Provider) (now : Nat)
    (db : DB) (a : Article) (h : db.getRow article_id = some a) :
    (∃ t, rewrite_article a.content req.tone provider = .ok t ∧
        rewrite article_id req provider now db =
          (db.updateRow { a with content := t, tone := req.tone, updated_at := now },
            .ok (to_article_out
              { a with content := t, tone := req.tone, updated_at := now })) ∧
        (db.updateRow
            { a with content := t, tone := req.tone, updated_at := now }).getRow
            article_id =
          some { a with content := t, tone := req.tone, updated_at := now }) ∨
    (∃ e, rewrite article_id req provider now db = (db, Except.error e)) := by
  cases hr : rewrite_article a.content req.tone provider with
  | error e =>
      right
      refine ⟨.badGateway ("LLM rewrite failed: " ++ e), ?_⟩
      simp only [rewrite, get_article_or_404, h, hr]
  | ok t =>
      have hb : is_blank (some t) = false := rewrite_article_ok hr
      have hreq : api_require_non_empty (some t)
          "LLM rewrite returned empty content" = .ok t := by
        simp [api_require_non_empty, hb]
      left
      refine ⟨t, rfl, ?_, getRow_updateRow h rfl⟩
      simp only [rewrite, get_article_or_404, h, hr, hreq]

/-- Witness for C2: rewriting the one-row store with a working provider
replaces content and tone of the stored row. -/
theorem rewrite_replaces_both_or_nothing_witness :
    exDB.getRow 1 = some exArticle ∧
    ((∃ t, rewrite_article exArticle.content
          (RewriteRequest.mk "professional").tone okProvider = .ok t ∧
        rewrite 1 (RewriteRequest.mk "professional") okProvider 7 exDB =
          (exDB.updateRow
              { exArticle with content := t, tone := "professional", updated_at := 7 },
            .ok (to_article_out
              { exArticle with content := t, tone := "professional", updated_at := 7 })) ∧
        (exDB.updateRow
            { exArticle with content := t, tone := "professional", updated_at := 7 }).getRow 1 =
          some { exArticle with content := t, tone := "professional", updated_at := 7 }) ∨
      (∃ e, rewrite 1 (RewriteRequest.mk "professional") okProvider 7 exDB =
          (exDB, Except.error e))) :=
  ⟨by decide,
    rewrite_replaces_both_or_nothing 1 (RewriteRequest.mk "professional")
      okProvider 7 exDB exArticle (by decide)⟩

/-- Claim C3: a successful partial update (PUT or PATCH /articles/id) leaves
every field that was omitted from the request body identical to its
pre-update value; only the provided fields are applied (id and created_at are
never touched). -/
theorem patch_preserves_omitted_fields
    (article_id : Nat) (req : ArticleUpdate) (now : Nat) (db db2 : DB)
    (a : Article) (out : ArticleOut)
    (h : db.getRow article_id = some a)
    (hres : patch_article article_id req now db = (db2, .ok out)) :
    ∃ row, db2.getRow article_id = some row ∧ out = to_article_out row ∧
      (req.title = none → row.title = a.title) ∧
      (req.audience = none → row.audience = a.audience) ∧
      (req.tone = none → row.tone = a.tone) ∧
      (req.article = none → row.content = a.content) ∧
      row.id = a.id ∧ row.created_at = a.created_at := by
  simp only [patch_article, get_article_or_404, h] at hres
  by_cases hblank : is_blank (some ((apply_update a req).content)) = true
  case pos =>
      rw [if_pos hblank] at hres
      exact Except.noConfusion (congrArg Prod.snd hres)
  case neg =>
      rw [if_neg hblank] at hres
      rw [Prod.mk.injEq] at hres
      obtain ⟨hdb2, hout'⟩ := hres
      injection hout' with hout
      obtain ⟨ht, hau, htn, har, hid, hcr, hup⟩ := apply_update_frame a req
      refine ⟨{ apply_update a req with updated_at := now }, ?_, ?_, ?_, ?_, ?_, ?_, ?_, ?_⟩
      · rw [← hdb2]
        exact getRow_updateRow h hid
      · exact hout.symm
      · intro hnone; exact ht hnone
      · intro hnone; exact hau hnone
      · intro hnone; exact htn hnone
      · intro hnone; exact har hnone
      · exact hid
      · exact hcr

/-- Witness for C3: patching only the tone of the one-row store leaves
title, audience and content unchanged. -/
theorem patch_preserves_omitted_fields_witness :
    exDB.getRow 1 = some exArticle ∧
    patch_article 1 (ArticleUpdate.mk none none (some "casual") none) 5 exDB =
      (exDB.updateRow { exArticle with tone := "casual", updated_at := 5 },
        .ok { id := 1, title := "T", audience := "general", tone := "casual",
              article := "Body", created_at := 0, updated_at := 5 }) ∧
    (∃ row,
      (exDB.updateRow { exArticle with tone := "casual", updated_at := 5 }).getRow 1 =
        some row ∧
      ({ id := 1, title := "T", audience := "general", tone := "casual",
         article := "Body", created_at := 0, updated_at := 5 : ArticleOut }) =
        to_article_out row ∧
      row.title = exArticle.title ∧ row.audience = exArticle.audience ∧
      row.content = exArticle.content ∧ row.id = exArticle.id ∧
      row.created_at = exArticle.created_at) := by
  refine ⟨by decide, by decide, ?_⟩
  obtain ⟨row, h1, h2, h3, h4, h5, h6, h7, h8⟩ :=
    patch_preserves_omitted_fields 1 (ArticleUpdate.mk none none (some "casual") none)
      5 exDB (exDB.updateRow { exArticle with tone := "casual", updated_at := 5 })
      exArticle
      { id := 1, title := "T", audience := "general", tone := "casual",
        article := "Body", created_at := 0, updated_at := 5 }
      (by decide) (by decide)
  exact ⟨row, h1, h2, h3 rfl, h4 rfl, h6 rfl, h7, h8⟩

/-- Claim C4 as stated is refuted on the update path: `ArticleUpdate` puts no
constraint on `title` (app/schemas/write.py lines 88-92), so a PATCH that
sets `title` to the empty string succeeds and persists an empty title. -/
theorem update_persists_blank_title_cex :
    patch_article 1 (ArticleUpdate.mk (some "") none none none) 5 exDB =
      (exDB.updateRow { exArticle with title := "", updated_at := 5 },
        .ok { id := 1, title := "", audience := "general", tone := "formal",
              article := "Body", created_at := 0, updated_at := 5 }) ∧
    (exDB.updateRow
        { exArticle with title := "", updated_at := 5 }).rows.map Article.title =
      [""] := by
  decide

/-- Claim C4 (amended): after a successful generate every persisted row is
either a pre-existing row or the newly created one, whose title meets the
pydantic bound of the request (non-empty, at most 200 characters); a
successful rewrite persists only titles that were already persisted. The
update path enforces no title constraint (see the counterexample), so the
title invariant is only maintained by generate and rewrite. -/
theorem generate_rewrite_title_invariant
    (req : GenerateRequest) (provider : Provider) (now : Nat) (db : DB)
    (hv : req.valid = true) :
    (∀ db2 resp, generate req provider now db = (db2, .ok resp) →
        ∀ row ∈ db2.rows, row ∈ db.rows ∨
          (1 ≤ row.title.length ∧ row.title.length ≤ 200)) ∧
    (∀ article_id rreq db2 out,
        rewrite article_id rreq provider now db = (db2, .ok out) →
        ∀ row ∈ db2.rows, ∃ row0 ∈ db.rows, row.title = row0.title) := by
  constructor
  · intro db2 resp hres row hrow
    cases hg : generate_article req.title req.audience req.tone provider with
    | error e =>
        simp only [generate, hg] at hres
        exact Except.noConfusion (congrArg Prod.snd hres)
    | ok t =>
        have hb : is_blank (some t) = false := generate_article_ok hg
        have hreq : api_require_non_empty (some t)
            "LLM generation returned empty content" = .ok t := by
          simp [api_require_non_empty, hb]
        simp only [generate, hg, hreq, DB.insertRow] at hres
        rw [Prod.mk.injEq] at hres
        obtain ⟨hdb2, -⟩ := hres
        rw [← hdb2] at hrow
        rcases List.mem_append.mp hrow with hmem | hmem
        · exact Or.inl hmem
        · right
          have hrw : row =
              { id := db.nextId, title := req.title, audience := req.audience,
                tone := req.tone, content := t, created_at := now,
                updated_at := now } := by
            simpa using hmem
          rw [hrw]
          simp only [GenerateRequest.valid, Bool.and_eq_true,
            decide_eq_true_eq] at hv
          exact ⟨hv.1.1.1, hv.1.1.2⟩
  · intro article_id rreq db2 out hres row hrow
    cases hga : db.getRow article_id with
    | none =>
        simp only [rewrite, get_article_or_404, hga] at hres
        exact Except.noConfusion (congrArg Prod.snd hres)
    | some a =>
        cases hr : rewrite_article a.content rreq.tone provider with
        | error e =>
            simp only [rewrite, get_article_or_404, hga, hr] at hres
            exact Except.noConfusion (congrArg Prod.snd hres)
        | ok t =>
            have hb : is_blank (some t) = false := rewrite_article_ok hr
            have hreq2 : api_require_non_empty (some t)
                "LLM rewrite returned empty content" = .ok t := by
              simp [api_require_non_empty, hb]
            simp only [rewrite, get_article_or_404, hga, hr, hreq2] at hres
            rw [Prod.mk.injEq] at hres
            obtain ⟨hdb2, -⟩ := hres
            rw [← hdb2] at hrow
            simp only [DB.updateRow] at hrow
            obtain ⟨r, hr0, hfr⟩ := List.mem_map.mp hrow
            by_cases hid2 : r.id =
                ({ a with content := t, tone := rreq.tone, updated_at := now } : Article).id
            · rw [if_pos hid2] at hfr
              refine ⟨a, List.mem_of_find?_eq_some hga, ?_⟩
              rw [← hfr]
            · rw [if_neg hid2] at hfr
              exact ⟨r, hr0, by rw [← hfr]⟩

/-- Witness for the amended C4: generating into the empty store with a valid
request persists exactly one row whose title is the requested, bounded one. -/
theorem generate_rewrite_title_invariant_witness :
    GenerateRequest.valid (GenerateRequest.mk "Hello" "general" "friendly") = true ∧
    generate (GenerateRequest.mk "Hello" "general" "friendly") okProvider 3 emptyDB =
      (DB.mk [Article.mk 1 "Hello" "general" "friendly" "# New\n\nText." 3 3] 2,
        .ok (GenerateResponse.mk 1 "Hello" "# New\n\nText.")) ∧
    (Article.mk 1 "Hello" "general" "friendly" "# New\n\nText." 3 3 ∈ emptyDB.rows ∨
      (1 ≤ "Hello".length ∧ "Hello".length ≤ 200)) := by
  refine ⟨by decide, by decide, ?_⟩
  exact (generate_rewrite_title_invariant
      (GenerateRequest.mk "Hello" "general" "friendly") okProvider 3 emptyDB
      (by decide)).1
    (DB.mk [Article.mk 1 "Hello" "general" "friendly" "# New\n\nText." 3 3] 2)
    (GenerateResponse.mk 1 "Hello" "# New\n\nText.") (by decide)
    (Article.mk 1 "Hello" "general" "friendly" "# New\n\nText." 3 3) (by decide)

/-- Claim C5 as stated is refuted: a NotFound failure in the UI surface is
not turned into a redirect-with-error-code — `_get_article_or_404` in
app/ui/web.py raises an HTTP 404 error body, as this rewrite on the empty
store shows. -/
theorem ui_notfound_is_http_error_cex :
    (ui_rewrite 1 "friendly" failProvider 0 emptyDB).2.1 =
      .httpError 404 "Article not found" ∧
    ((ui_rewrite 1 "friendly" failProvider 0 emptyDB).2.1).isRedirect = false := by
  decide

/-- Claim C5 (amended): LLM failures and blank-content failures in the UI
surface are answered with a redirect whose target carries a query-string
error code, the store untouched and the exception detail written only to the
server-side log; but a NotFound failure (missing article id) raises an HTTP
404 error body, exactly as in the API surface. -/
theorem ui_error_channels
    (db : DB) (article_id now : Nat)
    (title audience tone content e : String) (provider : Provider)
    (hp : ∀ prompt, provider prompt = .raises e) :
    (ui_generate title audience tone provider now db =
        (db, .redirect "/ui/new?error=llm_failed",
          [log_exc "LLM generate failed" e])) ∧
    (∀ a, db.getRow article_id = some a →
        ui_rewrite article_id tone provider now db =
          (db, .redirect ("/ui/articles/" ++ toString article_id ++ "?error=llm_failed"),
            [log_exc "LLM rewrite failed" e])) ∧
    (db.getRow article_id = none →
        ui_rewrite article_id tone provider now db =
          (db, .httpError 404 "Article not found", [])) ∧
    (is_blank (some content) = true →
        ui_update article_id title audience tone content now db =
          (db, .redirect ("/ui/articles/" ++ toString article_id ++ "?error=empty_content"),
            [])) := by
  refine ⟨?_, ?_, ?_, ?_⟩
  · simp only [ui_generate, generate_article, hp]
  · intro a ha
    simp only [ui_rewrite, ha, rewrite_article, hp]
  · intro hnone
    simp only [ui_rewrite, hnone]
  · intro hblank
    simp only [ui_update, hblank, if_pos]

/-- Witness for the amended C5: each UI failure channel observed on a
concrete store with a provider that raises. -/
theorem ui_error_channels_witness :
    (ui_generate "T" "general" "friendly" failProvider 0 exDB =
        (exDB, .redirect "/ui/new?error=llm_failed",
          [log_exc "LLM generate failed" "boom"])) ∧
    (ui_rewrite 1 "casual" failProvider 0 exDB =
        (exDB, .redirect "/ui/articles/1?error=llm_failed",
          [log_exc "LLM rewrite failed" "boom"])) ∧
    (ui_rewrite 1 "casual" failProvider 0 emptyDB =
        (emptyDB, .httpError 404 "Article not found", [])) ∧
    (ui_update 1 "T" "general" "casual" "  " 0 emptyDB =
        (emptyDB, .redirect "/ui/articles/1?error=empty_content", [])) := by
  have h1 := ui_error_channels exDB 1 0 "T" "general" "friendly" "  " "boom"
    failProvider (fun _ => rfl)
  have h2 := ui_error_channels emptyDB 1 0 "T" "general" "casual" "  " "boom"
    failProvider (fun _ => rfl)
  exact ⟨h1.1, h1.2.1 exArticle (by decide), h2.2.2.1 (by decide),
    h2.2.2.2 (by decide)⟩

/-- Claim C6: the gateway generate operation propagates any provider raise
as a failure, otherwise returns the first choice's message text trimmed, and
fails exactly when that text is blank after trimming — with a failure message
built from the provider's finish reason and the tool-call flag. -/
theorem gateway_generate_contract
    (title audience tone : String) (provider : Provider)
    (choice : Choice) (rest : List Choice) :
    (∀ e, provider (generatePrompt title audience tone) = .raises e →
        generate_article title audience tone provider = .error e) ∧
    (∀ res, provider (generatePrompt title audience tone) = .returns res →
        res.choices = choice :: rest →
        generate_article title audience tone provider =
          (if pyStrip (choice.message.content.getD "") = "" then
            Except.error (emptyContentMsg choice)
          else Except.ok (pyStrip (choice.message.content.getD "")))) ∧
    emptyContentMsg choice =
      "Empty LLM content (finish_reason=" ++ pyShowOptStr choice.finish_reason ++
        ", has_tool_calls=" ++ pyShowBool (hasToolCalls choice.message) ++ ")" := by
  refine ⟨?_, ?_, rfl⟩
  · intro e hp
    simp only [generate_article, hp]
  · intro res hp hchoices
    simp only [generate_article, hp, extractFirstChoice, hchoices]
    by_cases hb : pyStrip (choice.message.content.getD "") = ""
    · simp [require_non_empty, is_blank, pyStrip_idem, hb]
      decide
    · simp [require_non_empty, is_blank, pyStrip_idem, hb]

/-- Witness for C6: the three gateway outcomes — provider raise, usable
text, blank text with its diagnostic message — on concrete providers. -/
theorem gateway_generate_contract_witness :
    generate_article "T" "devs" "warm" failProvider = .error "boom" ∧
    generate_article "T" "devs" "warm" okProvider = .ok "# New\n\nText." ∧
    generate_article "T" "devs" "warm" blankProvider =
      .error "Empty LLM content (finish_reason=tool_calls, has_tool_calls=True)" := by
  have h1 := (gateway_generate_contract "T" "devs" "warm" failProvider
    okChoice []).1 "boom" rfl
  have h2 := (gateway_generate_contract "T" "devs" "warm" okProvider
    okChoice []).2.1 (ChatResponse.mk [okChoice]) rfl rfl
  have h3 := (gateway_generate_contract "T" "devs" "warm" blankProvider
    blankChoice []).2.1 (ChatResponse.mk [blankChoice]) rfl rfl
  refine ⟨h1, ?_, ?_⟩
  · rw [h2]; decide
  · rw [h3]; decide

/-- Claim C7: GET /articles returns exactly the stored articles in strictly
decreasing id order, and the empty sequence on the empty store. -/
theorem list_articles_sorted_desc (db : DB)
    (hnd : (db.rows.map Article.id).Nodup) :
    (list_articles db).Perm (db.rows.map to_article_out) ∧
    List.Pairwise (fun x y => y.id < x.id) (list_articles db) ∧
    (db.rows = [] → list_articles db = []) := by
  unfold list_articles
  refine ⟨List.Perm.map to_article_out
    (List.mergeSort_perm db.rows (fun a b => decide (b.id ≤ a.id))), ?_, ?_⟩
  · have htrans : ∀ a b c : Article, decide (b.id ≤ a.id) = true →
        decide (c.id ≤ b.id) = true → decide (c.id ≤ a.id) = true := by
      intro a b c hab hbc
      simp only [decide_eq_true_eq] at hab hbc ⊢
      omega
    have htotal : ∀ a b : Article,
        (decide (b.id ≤ a.id) || decide (a.id ≤ b.id)) = true := by
      intro a b
      simp only [Bool.or_eq_true, decide_eq_true_eq]
      omega
    have hs := @List.sorted_mergeSort Article
      (fun a b => decide (b.id ≤ a.id)) htrans htotal db.rows
    have hperm := List.mergeSort_perm db.rows (fun a b => decide (b.id ≤ a.id))
    have hnd2 : ((db.rows.mergeSort
        (fun a b => decide (b.id ≤ a.id))).map Article.id).Nodup :=
      (List.Perm.nodup_iff (hperm.map Article.id)).mpr hnd
    have hnd3 : List.Pairwise (fun a b : Article => a.id ≠ b.id)
        (db.rows.mergeSort (fun a b => decide (b.id ≤ a.id))) :=
      List.pairwise_map.mp hnd2
    have hlt : List.Pairwise (fun a b : Article => b.id < a.id)
        (db.rows.mergeSort (fun a b => decide (b.id ≤ a.id))) := by
      refine (hs.and hnd3).imp ?_
      intro a b hab
      obtain ⟨h1, h2⟩ := hab
      simp only [decide_eq_true_eq] at h1
      omega
    exact List.pairwise_map.mpr hlt
  · intro hne
    rw [hne]
    simp

/-- Witness for C7: the two-row store listed newest first. -/
theorem list_articles_sorted_desc_witness :
    (exDB2.rows.map Article.id).Nodup ∧
    ((list_articles exDB2).Perm (exDB2.rows.map to_article_out) ∧
      List.Pairwise (fun x y => y.id < x.id) (list_articles exDB2) ∧
      (exDB2.rows = [] → list_articles exDB2 = [])) :=
  ⟨by decide, list_articles_sorted_desc exDB2 (by decide)⟩

/-- Claim C8: deleting an absent id fails with NotFound (HTTP 404) and
returns the store unchanged; deleting an existing id removes it, and deleting
it again immediately afterwards fails with NotFound — a no-op delete is an
error, never silently ignored. -/
theorem delete_notfound_semantics (db : DB) (article_id : Nat) :
    (db.getRow article_id = none →
        delete_article article_id db =
          (db, .error (.notFound "Article not found"))) ∧
    (∀ a, db.getRow article_id = some a → (db.rows.map Article.id).Nodup →
        delete_article article_id db =
          (db.deleteRow article_id, .ok (DeleteResponse.mk true article_id)) ∧
        (db.deleteRow article_id).getRow article_id = none ∧
        delete_article article_id (db.deleteRow article_id) =
          (db.deleteRow article_id, .error (.notFound "Article not found"))) ∧
    ApiError.statusCode (.notFound "Article not found") = 404 := by
  refine ⟨?_, ?_, rfl⟩
  · intro hnone
    simp only [delete_article, get_article_or_404, hnone]
  · intro a ha hnd
    have h2 : (db.deleteRow article_id).getRow article_id = none :=
      getRow_deleteRow_self hnd
    refine ⟨?_, h2, ?_⟩
    · simp only [delete_article, get_article_or_404, ha]
    · simp only [delete_article, get_article_or_404, h2]

/-- Witness for C8: deleting id 1 of the one-row store succeeds once and is
NotFound the second time. -/
theorem delete_notfound_semantics_witness :
    exDB.getRow 1 = some exArticle ∧ (exDB.rows.map Article.id).Nodup ∧
    (delete_article 1 exDB = (exDB.deleteRow 1, .ok (DeleteResponse.mk true 1)) ∧
      (exDB.deleteRow 1).getRow 1 = none ∧
      delete_article 1 (exDB.deleteRow 1) =
        (exDB.deleteRow 1, .error (.notFound "Article not found"))) :=
  ⟨by decide, by decide,
    (delete_notfound_semantics exDB 1).2.1 exArticle (by decide) (by decide)⟩

/-- Claim C9: a successful rewrite whose body omitted `tone` stores the
pydantic default tone "friendly", regardless of the article's previous
tone. -/
theorem rewrite_omitted_tone_defaults
    (article_id now : Nat) (db db2 : DB) (a : Article) (out : ArticleOut)
    (req : RewriteRequest) (provider : Provider)
    (hparse : RewriteRequest.parse none = .ok req)
    (h : db.getRow article_id = some a)
    (hres : rewrite article_id req provider now db = (db2, .ok out)) :
    req.tone = "friendly" ∧ out.tone = "friendly" ∧
    ∃ row, db2.getRow article_id = some row ∧ row.tone = "friendly" := by
  have hfr : req = RewriteRequest.mk "friendly" := by
    have hp : RewriteRequest.parse none = .ok (RewriteRequest.mk "friendly") := by
      decide
    rw [hp] at hparse
    exact (Except.ok.inj hparse).symm
  subst hfr
  cases hr : rewrite_article a.content (RewriteRequest.mk "friendly").tone provider with
  | error e =>
      simp only [rewrite, get_article_or_404, h, hr] at hres
      exact Except.noConfusion (congrArg Prod.snd hres)
  | ok t =>
      have hb : is_blank (some t) = false := rewrite_article_ok hr
      have hreq2 : api_require_non_empty (some t)
          "LLM rewrite returned empty content" = .ok t := by
        simp [api_require_non_empty, hb]
      simp only [rewrite, get_article_or_404, h, hr, hreq2] at hres
      rw [Prod.mk.injEq] at hres
      obtain ⟨hdb2, hout'⟩ := hres
      injection hout' with hout
      refine ⟨rfl, ?_, ?_⟩
      · rw [← hout]; rfl
      · refine ⟨{ a with content := t, tone := "friendly", updated_at := now },
          ?_, rfl⟩
        rw [← hdb2]
        exact getRow_updateRow h rfl

/-- The article of the one-row store after a rewrite with the default tone. -/
def rewrittenArticle : Article :=
  { exArticle with content := "# New\n\nText.", tone := "friendly", updated_at := 9 }

/-- The response body of that rewrite. -/
def rewrittenOut : ArticleOut := to_article_out rewrittenArticle

/-- Witness for C9: rewriting the article whose stored tone is "formal" with
a body that omitted `tone` stores tone "friendly". -/
theorem rewrite_omitted_tone_defaults_witness :
    RewriteRequest.parse none = .ok (RewriteRequest.mk "friendly") ∧
    exDB.getRow 1 = some exArticle ∧
    rewrite 1 (RewriteRequest.mk "friendly") okProvider 9 exDB =
      (exDB.updateRow rewrittenArticle, .ok rewrittenOut) ∧
    ((RewriteRequest.mk "friendly").tone = "friendly" ∧
      rewrittenOut.tone = "friendly" ∧
      ∃ row, (exDB.updateRow rewrittenArticle).getRow 1 = some row ∧
        row.tone = "friendly") := by
  refine ⟨by decide, by decide, by decide, ?_⟩
  exact rewrite_omitted_tone_defaults 1 9 exDB (exDB.updateRow rewrittenArticle)
    exArticle rewrittenOut
    (RewriteRequest.mk "friendly") okProvider (by decide) (by decide) (by decide)

/-- Claim C10: the UI update endpoint checks blank content before article
existence, so a blank-content request is answered with the
`error=empty_content` redirect and an unchanged store even when the id is
absent from the store. -/
theorem ui_update_blank_precedes_existence
    (article_id : Nat) (title audience tone content : String) (now : Nat)
    (db : DB) (hblank : is_blank (some content) = true) :
    ui_update article_id title audience tone content now db =
      (db, .redirect ("/ui/articles/" ++ toString article_id ++ "?error=empty_content"),
        []) := by
  simp only [ui_update, hblank, if_pos]

/-- Witness for C10: a whitespace-only content on an id that does not exist
still gets the empty-content redirect with the store unchanged. -/
theorem ui_update_blank_precedes_existence_witness :
    is_blank (some "  ") = true ∧ emptyDB.getRow 1 = none ∧
    ui_update 1 "T" "general" "casual" "  " 0 emptyDB =
      (emptyDB, .redirect "/ui/articles/1?error=empty_content", []) := by
  refine ⟨by decide, by decide, ?_⟩
  exact ui_update_blank_precedes_existence 1 "T" "general" "casual" "  " 0 emptyDB
    (by decide)

end WritePilot
